import Mathlib

/-!
Verification of the dietary-score calculator.

The repository holds two near-duplicate variants of the same application:
`app.py` (categories used verbatim, no score cap) and `app_2.py`
(category normalization, matched-component lists, an explicit score cap,
and explanation generation).  Both scoring engines are embedded below:
the `app_2.py` engine at top level and the `app.py` engine inside the
namespace `app`.  Strings are modelled by Lean strings; the Python string
methods `lower` and `strip` are modelled character-wise on `String.data`.
Percentages are modelled by rational numbers.
-/

set_option maxHeartbeats 1000000

/-- ASCII whitespace characters removed by the Python string method strip. -/
def pyIsSpace (c : Char) : Bool :=
  c == ' ' || c == '\t' || c == '\n' || c == '\r' || c == '\x0b' || c == '\x0c'

/-- List-level model of the Python string method strip: remove leading and
trailing whitespace characters. -/
def stripL (l : List Char) : List Char :=
  ((l.dropWhile pyIsSpace).reverse.dropWhile pyIsSpace).reverse

/-- Model of the Python string method lower: character-wise lowercasing. -/
def pyLower (s : String) : String := ⟨s.data.map Char.toLower⟩

/-- Model of the Python string method strip. -/
def pyStrip (s : String) : String := ⟨stripL s.data⟩

/-- The alias table `category_mappings` of `normalize_category`
(app_2.py lines 260-278). -/
def category_mappings : List (String × String) := [
  ("vegetables", "other vegetables"),
  ("leafy vegetables", "green leafy vegetables"),
  ("beans", "beans & legumes"),
  ("legumes", "beans & legumes"),
  ("processed meat", "red & processed meat"),
  ("red meat", "red & processed meat"),
  ("fried foods", "fast and fried foods"),
  ("desserts", "sweets and desserts"),
  ("sweets", "sweets and desserts"),
  ("margarine", "butter & stick margarine"),
  ("butter", "butter & stick margarine"),
  ("cheese", "regular cheese"),
  ("refined grain", "refined grains"),
  ("whole grain", "whole grains"),
  ("fruit juice", "fruit juices"),
  ("sweetened beverages", "sugar sweetened beverages"),
  ("poultry", "poultry (not fried, skinless)")]

/-- Translation of `normalize_category` (app_2.py lines 254-280): lower-case
and strip the input, then return the alias-table entry when the result is a
key of the table, and otherwise return the lower-cased, stripped input
unchanged. -/
def normalize_category (category : String) : String :=
  let c := pyStrip (pyLower category)
  (category_mappings.lookup c).getD c

/-- An ingredient record as consumed by the scoring engines.  Of its fields
(`quantity_per_serving`, `category`, `calorific_value`) only `category` is
read by `calculate_dietary_scores`, so only that field is modelled. -/
structure Ingredient where
  category : String
deriving DecidableEq

/-- A food record: primary ingredients are always included in scoring,
optional ingredients only when their name has been selected.  The fields
not read by the scoring engines (serving size, total calories) are
omitted. -/
structure Food where
  primary_ingredients : List (String × Ingredient)
  optional_ingredients : List (String × Ingredient)
deriving DecidableEq

/-- One entry of the `dietary_indices` table of app_2.py: an ordered
component-to-weight mapping, a maximum score and a description. -/
structure IndexInfo where
  components : List (String × Nat)
  max_score : Nat
  description : String
deriving DecidableEq

/-- The AHEI-2010 entry of `dietary_indices` (app_2.py lines 29-48). -/
def ahei2010 : IndexInfo :=
  ⟨[("other vegetables", 1), ("Fruit", 1), ("Whole Grains", 1),
    ("sugar sweetened beverages", 1), ("nuts", 1), ("fish", 1),
    ("red & processed meat", 1), ("poultry (not fried, skinless)", 1),
    ("dairy", 1), ("alcohol", 1), ("vegetable oils", 1), ("trans fat", 1),
    ("n-3 fats", 1), ("PUFA", 1)], 11,
   "Alternative Healthy Eating Index - focuses on foods and nutrients that reduce chronic disease risk"⟩

/-- The aMED entry of `dietary_indices` (app_2.py lines 49-64). -/
def amed : IndexInfo :=
  ⟨[("other vegetables", 1), ("Fruit", 1), ("Whole Grains", 1),
    ("legumes", 1), ("nuts", 1), ("fish", 1), ("red & processed meat", 1),
    ("olive oil", 1), ("alcohol", 1),
    ("ratio of monounsaturated to saturated fat", 1)], 9,
   "Alternative Mediterranean Diet - emphasizes traditional Mediterranean eating patterns"⟩

/-- The MIND entry of `dietary_indices` (app_2.py lines 65-85). -/
def mind : IndexInfo :=
  ⟨[("green leafy vegetables", 1), ("other vegetables", 1), ("Fruit", 1),
    ("Berries", 1), ("Whole Grains", 1), ("nuts", 1), ("beans & legumes", 1),
    ("fish", 1), ("poultry (not fried, skinless)", 1), ("olive oil", 1),
    ("red & processed meat", 1), ("fast and fried foods", 1),
    ("pastries and sweets", 1), ("butter & stick margarine", 1),
    ("regular cheese", 1)], 15,
   "Mediterranean-DASH Intervention for Neurodegenerative Delay - designed to promote brain health"⟩

/-- The DASH entry of `dietary_indices` (app_2.py lines 86-100). -/
def dash : IndexInfo :=
  ⟨[("other vegetables", 1), ("Fruit", 1), ("Whole Grains", 1), ("nuts", 1),
    ("legumes", 1), ("low-fat dairy", 1), ("red & processed meat", 1),
    ("sweets and desserts", 1), ("Sodium", 1)], 8,
   "Dietary Approaches to Stop Hypertension - designed to help lower blood pressure"⟩

/-- The PDI entry of `dietary_indices` (app_2.py lines 101-124). -/
def pdi : IndexInfo :=
  ⟨[("other vegetables", 1), ("Vegetables", 1), ("Fruit", 1), ("Berries", 1),
    ("Whole Grains", 1), ("Refined grains", 1),
    ("sugar sweetened beverages", 1), ("fruit juices", 1), ("nuts", 1),
    ("legumes", 1), ("fish", 1), ("dairy", 1), ("egg", 1),
    ("red & processed meat", 1), ("poultry (not fried, skinless)", 1),
    ("fast and fried foods", 1), ("sweets and desserts", 1),
    ("animal fat", 1)], 18,
   "Plant-based Diet Index - emphasizes plant foods while limiting animal products"⟩

/-- The DII entry of `dietary_indices` (app_2.py lines 125-175). -/
def dii : IndexInfo :=
  ⟨[("Garlic (g)", 1), ("Pepper (g)", 1), ("Thyme/oregano (mg)", 1),
    ("Rosemary (mg)", 1), ("Green/black tea (g)", 1), ("Ginger (g)", 1),
    ("Onion (g)", 1), ("Saffron (g)", 1), ("Turmeric (mg)", 1),
    ("Sodium", 1), ("trans fat", 1), ("n-3 fats", 1), ("PUFA", 1),
    ("Total fat (g)", 1), ("Cholesterol (mg)", 1), ("MUFA (g)", 1),
    ("n-6 Fatty acids (g)", 1), ("Saturated fat (g)", 1), ("Fibre (g)", 1),
    ("Energy (kcal)", 1), ("Protein (g)", 1), ("Carbohydrate (g)", 1),
    ("Caffeine (g)", 1), ("β-Carotene (μg)", 1), ("Eugenol (mg)", 1),
    ("Folic acid (μg)", 1), ("Fe (mg)", 1), ("Mg (mg)", 1),
    ("Niacin (mg)", 1), ("Riboflavin (mg)", 1), ("Se (μg)", 1),
    ("Thiamin (mg)", 1), ("Zn (mg)", 1), ("Vitamin B12 (μg)", 1),
    ("Vitamin B6 (mg)", 1), ("Vitamin A (RE)", 1), ("Vitamin C (mg)", 1),
    ("Vitamin D (μg)", 1), ("Vitamin E (mg)", 1), ("Anthocyanidins (mg)", 1),
    ("Flavan-3-ol (mg)", 1), ("Flavones (mg)", 1), ("Flavonols (mg)", 1),
    ("Flavonones (mg)", 1), ("Isoflavones (mg)", 1)], 45,
   "Dietary Inflammatory Index - measures the inflammatory potential of your diet"⟩

/-- The `dietary_indices` table of app_2.py (lines 28-176), in definition
order. -/
def dietary_indices : List (String × IndexInfo) :=
  [("AHEI-2010", ahei2010), ("aMED", amed), ("MIND", mind), ("DASH", dash),
   ("PDI", pdi), ("DII", dii)]

/-- The set `reverse_scored_components` (app_2.py lines 179-183). -/
def reverse_scored_components : List String :=
  ["sugar sweetened beverages", "red & processed meat", "trans fat",
   "fast and fried foods", "pastries and sweets", "butter & stick margarine",
   "regular cheese", "sweets and desserts", "Sodium", "Refined grains",
   "fruit juices", "dairy", "egg", "animal fat"]

/-- The category set built by `calculate_dietary_scores`
(app_2.py lines 285-296): normalized categories of every primary
ingredient, plus normalized categories of the optional ingredients whose
name is selected.  The Python set is modelled as a list used only through
membership. -/
def collectCategories (food_data : Food) (selected_optionals : List String) :
    List String :=
  food_data.primary_ingredients.map (fun p => normalize_category p.2.category)
    ++ (food_data.optional_ingredients.filter
          (fun p => decide (p.1 ∈ selected_optionals))).map
        (fun p => normalize_category p.2.category)

/-- The running score of the per-index loop of `calculate_dietary_scores`
(app_2.py lines 305-318): a component earns its points when its normalized
label is in the category set, and otherwise when the component is
"Energy (kcal)". -/
def rawScore (categories : List String) : List (String × Nat) → Nat
  | [] => 0
  | (component, points) :: rest =>
    if normalize_category component ∈ categories then
      points + rawScore categories rest
    else if component = "Energy (kcal)" then
      points + rawScore categories rest
    else rawScore categories rest

/-- The matched-component list of the per-index loop of
`calculate_dietary_scores` (app_2.py lines 305-318), accumulated in the
same order and under the same conditions as `rawScore`. -/
def matchedComponents (categories : List String) :
    List (String × Nat) → List String
  | [] => []
  | (component, _) :: rest =>
    if normalize_category component ∈ categories then
      component :: matchedComponents categories rest
    else if component = "Energy (kcal)" then
      component :: matchedComponents categories rest
    else matchedComponents categories rest

/-- The contribution of one component entry to the running score: the
summand that the loop body of `calculate_dietary_scores` adds for this
entry. -/
def contrib (categories : List String) (cp : String × Nat) : Nat :=
  if normalize_category cp.1 ∈ categories then cp.2
  else if cp.1 = "Energy (kcal)" then cp.2
  else 0

/-- Translation of `calculate_dietary_scores` (app_2.py lines 282-325):
for every index of the catalog, the index name, the capped score
`min raw max_score`, the maximum score, and the matched-component list. -/
def calculate_dietary_scores (food_data : Food)
    (selected_optionals : List String) :
    List (String × Nat × Nat × List String) :=
  let categories := collectCategories food_data selected_optionals
  dietary_indices.map (fun e =>
    (e.1, min (rawScore categories e.2.components) e.2.max_score,
     e.2.max_score, matchedComponents categories e.2.components))

/-- The table `component_explanations` (app_2.py lines 186-234). -/
def component_explanations : List (String × String) := [
  ("other vegetables", "vegetables provide essential vitamins, minerals, and fiber"),
  ("Fruit", "fruits are rich in antioxidants, vitamins, and natural fiber"),
  ("Whole Grains", "whole grains provide sustained energy and important nutrients"),
  ("nuts", "nuts contain healthy fats, protein, and various micronutrients"),
  ("fish", "fish provides omega-3 fatty acids that support heart and brain health"),
  ("green leafy vegetables", "leafy greens are packed with folate, iron, and antioxidants"),
  ("Berries", "berries are high in antioxidants and may support brain health"),
  ("beans & legumes", "legumes provide plant protein, fiber, and important minerals"),
  ("poultry (not fried, skinless)", "lean poultry provides high-quality protein"),
  ("olive oil", "olive oil contains healthy monounsaturated fats"),
  ("low-fat dairy", "low-fat dairy provides calcium and protein with less saturated fat"),
  ("legumes", "legumes offer plant protein, fiber, and various nutrients"),
  ("vegetable oils", "certain vegetable oils provide healthy unsaturated fats"),
  ("n-3 fats", "omega-3 fatty acids support heart and brain health"),
  ("PUFA", "polyunsaturated fats can help reduce inflammation"),
  ("alcohol", "moderate alcohol consumption may have some health benefits"),
  ("ratio of monounsaturated to saturated fat", "higher ratio indicates healthier fat profile"),
  ("Vegetables", "vegetables provide essential nutrients and protective compounds"),
  ("Onion (g)", "onions contain anti-inflammatory compounds"),
  ("Garlic (g)", "garlic has anti-inflammatory and antimicrobial properties"),
  ("Pepper (g)", "peppers contain antioxidants and anti-inflammatory compounds"),
  ("Thyme/oregano (mg)", "herbs like thyme and oregano have anti-inflammatory properties"),
  ("Rosemary (mg)", "rosemary contains powerful antioxidants"),
  ("Green/black tea (g)", "tea provides antioxidants and anti-inflammatory compounds"),
  ("Ginger (g)", "ginger has strong anti-inflammatory effects"),
  ("Saffron (g)", "saffron contains antioxidants and may support mood"),
  ("Turmeric (mg)", "turmeric contains curcumin, a powerful anti-inflammatory compound"),
  ("Fibre (g)", "fiber supports digestive health and may reduce inflammation"),
  ("β-Carotene (μg)", "beta-carotene is an antioxidant that converts to vitamin A"),
  ("Eugenol (mg)", "eugenol has anti-inflammatory and antioxidant properties"),
  ("Folic acid (μg)", "folate supports cell division and may reduce inflammation"),
  ("Mg (mg)", "magnesium supports many bodily functions and may reduce inflammation"),
  ("Niacin (mg)", "niacin (vitamin B3) supports energy metabolism"),
  ("Riboflavin (mg)", "riboflavin (vitamin B2) supports cellular energy production"),
  ("Thiamin (mg)", "thiamin (vitamin B1) supports nervous system function"),
  ("Vitamin B12 (μg)", "vitamin B12 supports nerve function and red blood cell formation"),
  ("Vitamin B6 (mg)", "vitamin B6 supports brain function and immune system"),
  ("Vitamin A (RE)", "vitamin A supports vision, immune function, and cell growth"),
  ("Vitamin C (mg)", "vitamin C is a powerful antioxidant that supports immune function"),
  ("Vitamin D (μg)", "vitamin D supports bone health and immune function"),
  ("Vitamin E (mg)", "vitamin E is an antioxidant that protects cells from damage"),
  ("Anthocyanidins (mg)", "anthocyanidins are antioxidants that give fruits their color"),
  ("Flavan-3-ol (mg)", "flavan-3-ols are antioxidants found in tea, cocoa, and fruits"),
  ("Flavones (mg)", "flavones are plant compounds with anti-inflammatory effects"),
  ("Flavonols (mg)", "flavonols are antioxidants found in many fruits and vegetables"),
  ("Flavonones (mg)", "flavonones are citrus compounds with anti-inflammatory properties"),
  ("Isoflavones (mg)", "isoflavones are plant compounds with potential health benefits")]

/-- The table `negative_explanations` (app_2.py lines 237-252). -/
def negative_explanations : List (String × String) := [
  ("sugar sweetened beverages", "sugary drinks can lead to weight gain and increased diabetes risk"),
  ("red & processed meat", "high consumption may increase risk of heart disease and certain cancers"),
  ("trans fat", "trans fats raise bad cholesterol and increase heart disease risk"),
  ("fast and fried foods", "these foods are often high in unhealthy fats and calories"),
  ("pastries and sweets", "high sugar content can lead to blood sugar spikes and weight gain"),
  ("butter & stick margarine", "these fats are high in saturated fat which can raise cholesterol"),
  ("regular cheese", "high-fat cheese can contribute to saturated fat intake"),
  ("sweets and desserts", "high sugar content provides empty calories and can affect blood sugar"),
  ("Sodium", "excess sodium can contribute to high blood pressure"),
  ("Refined grains", "refined grains lack fiber and nutrients compared to whole grains"),
  ("fruit juices", "fruit juices are high in sugar and lack the fiber of whole fruits"),
  ("dairy", "in some diet indices, dairy is limited to emphasize plant-based foods"),
  ("egg", "in plant-based indices, eggs are limited as they\x27re animal products"),
  ("animal fat", "animal fats are typically higher in saturated fat")]

/-- Display of a percentage with one decimal place, standing in for the
Python format specifier used in `get_doctor_explanation`. -/
def pctText (q : ℚ) : String :=
  let n : Int := round (q * 10)
  toString (n / 10) ++ "." ++ toString (n % 10)

/-- The overall-assessment headline of `get_doctor_explanation`
(app_2.py lines 331-339): an if-elif chain over the percentage with
thresholds 70, 50 and 30. -/
def assessment_line (index : String) (percentage : ℚ) : String :=
  if percentage ≥ 70 then
    "**Excellent news!** Your food scores " ++ pctText percentage
      ++ "% on the " ++ index ++ " scale, which is considered very good."
  else if percentage ≥ 50 then
    "**Good progress!** Your food scores " ++ pctText percentage
      ++ "% on the " ++ index ++ " scale, which is moderately healthy."
  else if percentage ≥ 30 then
    "**Room for improvement.** Your food scores " ++ pctText percentage
      ++ "% on the " ++ index
      ++ " scale, indicating some healthy elements but with potential for enhancement."
  else
    "**Significant improvement needed.** Your food scores "
      ++ pctText percentage ++ "% on the " ++ index
      ++ " scale, suggesting this food doesn\x27t align well with this dietary pattern."

/-- The positive bucket of `get_doctor_explanation` (app_2.py line 346):
matched components that are not reverse-scored. -/
def positive_components (matched_components : List String) : List String :=
  matched_components.filter (fun comp => decide (comp ∉ reverse_scored_components))

/-- The negative bucket of `get_doctor_explanation` (app_2.py line 347):
matched components that are reverse-scored. -/
def negative_components (matched_components : List String) : List String :=
  matched_components.filter (fun comp => decide (comp ∈ reverse_scored_components))

/-- One bullet of the positive bucket (app_2.py lines 351-355). -/
def positive_bullet (comp : String) : String :=
  match component_explanations.lookup comp with
  | some e => "• Your food contains **" ++ pyLower comp ++ "** - " ++ e
  | none => "• Your food contains **" ++ pyLower comp
      ++ "** which contributes positively to this dietary pattern"

/-- One bullet of the negative bucket (app_2.py lines 359-363). -/
def negative_bullet (comp : String) : String :=
  match negative_explanations.lookup comp with
  | some e => "• Your food contains **" ++ pyLower comp ++ "** - " ++ e
  | none => "• Your food contains **" ++ pyLower comp
      ++ "** which may not align with this dietary pattern"

/-- The matched-components part of `get_doctor_explanation`
(app_2.py lines 344-363): the positive bucket under a working-well
header, then the negative bucket under an areas-of-concern header. -/
def matched_section (matched_components : List String) : List String :=
  if matched_components.isEmpty then []
  else
    (if (positive_components matched_components).isEmpty then []
     else "\n**What\x27s working well:**"
       :: (positive_components matched_components).map positive_bullet)
    ++ (if (negative_components matched_components).isEmpty then []
        else "\n**Areas of concern:**"
          :: (negative_components matched_components).map negative_bullet)

/-- The unmatched-and-improvable set of `get_doctor_explanation`
(app_2.py lines 366-367): index components that are neither matched nor
reverse-scored, in component order. -/
def unmatched_components (all_components matched_components : List String) :
    List String :=
  all_components.filter (fun comp =>
    decide (comp ∉ matched_components ∧ comp ∉ reverse_scored_components))

/-- One improvement-suggestion bullet (app_2.py lines 373-377). -/
def suggestion_bullet (comp : String) : String :=
  match component_explanations.lookup comp with
  | some e => "• **" ++ pyLower comp ++ "** - " ++ e
  | none => "• **" ++ pyLower comp ++ "** would benefit this dietary pattern"

/-- The line counting improvable components beyond the first three
(app_2.py lines 381-382), emitted only when more than three exist. -/
def remaining_note (all_components matched_components : List String) :
    List String :=
  if 3 < (unmatched_components all_components matched_components).length then
    ["• ... and "
      ++ toString ((unmatched_components all_components matched_components).length - 3)
      ++ " other beneficial components"]
  else []

/-- The improvement-suggestion part of `get_doctor_explanation`
(app_2.py lines 365-382): a header, bullets for the first three
unmatched-and-improvable components, and the remaining-count line. -/
def improvement_section (all_components matched_components : List String) :
    List String :=
  if (unmatched_components all_components matched_components).isEmpty then []
  else "\n**To improve your score, consider adding:**"
    :: ((unmatched_components all_components matched_components).take 3).map
        suggestion_bullet
    ++ remaining_note all_components matched_components

set_option linter.unusedVariables false in
/-- Translation of `get_doctor_explanation` (app_2.py lines 327-384),
assembled from the section builders above and joined with newlines.  The
arguments `score` and `max_score` are accepted but unused, exactly as in
the source. -/
def get_doctor_explanation (index : String) (score max_score : Nat)
    (matched_components : List String) (percentage : ℚ) : String :=
  let info := (dietary_indices.lookup index).getD ⟨[], 0, ""⟩
  let explanation :=
    [assessment_line index percentage, "\n*" ++ info.description ++ ".*"]
      ++ matched_section matched_components
      ++ improvement_section (info.components.map Prod.fst) matched_components
  String.intercalate ("\n") explanation

/-- Attachment of the percentage to one score tuple as in `main`
(app_2.py lines 496-497). -/
def withPercentage (r : String × Nat × Nat × List String) :
    String × Nat × Nat × List String × ℚ :=
  (r.1, r.2.1, r.2.2.1, r.2.2.2, (r.2.1 : ℚ) / (r.2.2.1 : ℚ) * 100)

/-- The list `scores_with_percentage` of `main` (app_2.py lines 496-497). -/
def scores_with_percentage
    (scores : List (String × Nat × Nat × List String)) :
    List (String × Nat × Nat × List String × ℚ) :=
  scores.map withPercentage

/-- The percentage field of an augmented score tuple. -/
def pctOf (x : String × Nat × Nat × List String × ℚ) : ℚ := x.2.2.2.2

/-- The sort of `main` (app_2.py line 498): Python list.sort with
reverse=True is a stable descending sort on the key, modelled by a stable
merge sort under the greater-or-equal comparison on percentages. -/
def sort_by_percentage_desc
    (l : List (String × Nat × Nat × List String × ℚ)) :
    List (String × Nat × Nat × List String × ℚ) :=
  l.mergeSort (fun a b => decide (pctOf b ≤ pctOf a))

/-- The ordering in which `main` presents the per-index results
(app_2.py lines 493-498). -/
def presented_scores (food_data : Food) (selected_optionals : List String) :
    List (String × Nat × Nat × List String × ℚ) :=
  sort_by_percentage_desc
    (scores_with_percentage
      (calculate_dietary_scores food_data selected_optionals))

namespace app

/-- The AHEI-2010 component list of app.py (lines 27-34). -/
def ahei_components : List String :=
  ["other vegetables", "Fruit", "Whole Grains", "sugar sweetened beverages",
   "nuts", "fish", "red & processed meat", "poultry (not fried, skinless)",
   "dairy", "alcohol", "vegetable oils", "trans fat", "n-3 fats", "PUFA"]

/-- The aMED component list of app.py (lines 35-41). -/
def amed_components : List String :=
  ["other vegetables", "Fruit", "Whole Grains", "legumes", "nuts", "fish",
   "red & processed meat", "olive oil", "alcohol",
   "ratio of monounsaturated to saturated fat"]

/-- The MIND component list of app.py (lines 42-50). -/
def mind_components : List String :=
  ["green leafy vegetables", "other vegetables", "Fruit", "Berries",
   "Whole Grains", "nuts", "beans & legumes", "fish",
   "poultry (not fried, skinless)", "olive oil", "red & processed meat",
   "fast and fried foods", "pastries and sweets", "butter & stick margarine",
   "regular cheese"]

/-- The DASH component list of app.py (lines 51-57). -/
def dash_components : List String :=
  ["other vegetables", "Fruit", "Whole Grains", "nuts", "legumes",
   "low-fat dairy", "red & processed meat", "sweets and desserts", "Sodium"]

/-- The PDI component list of app.py (lines 58-66). -/
def pdi_components : List String :=
  ["other vegetables", "Vegetables", "Fruit", "Berries", "Whole Grains",
   "Refined grains", "sugar sweetened beverages", "fruit juices", "nuts",
   "legumes", "fish", "dairy", "egg", "red & processed meat",
   "poultry (not fried, skinless)", "fast and fried foods",
   "sweets and desserts", "animal fat"]

/-- The DII component list of app.py (lines 67-80). -/
def dii_components : List String :=
  ["Garlic (g)", "Pepper (g)", "Thyme/oregano (mg)", "Rosemary (mg)",
   "Green/black tea (g)", "Ginger (g)", "Onion (g)", "Saffron (g)",
   "Turmeric (mg)", "Sodium", "trans fat", "n-3 fats", "PUFA",
   "Total fat (g)", "Cholesterol (mg)", "MUFA (g)", "n-6 Fatty acids (g)",
   "Saturated fat (g)", "Fibre (g)", "Energy (kcal)", "Protein (g)",
   "Carbohydrate (g)", "Caffeine (g)", "β-Carotene (μg)", "Eugenol (mg)",
   "Folic acid (μg)", "Fe (mg)", "Mg (mg)", "Niacin (mg)",
   "Riboflavin (mg)", "Se (μg)", "Thiamin (mg)", "Zn (mg)",
   "Vitamin B12 (μg)", "Vitamin B6 (mg)", "Vitamin A (RE)",
   "Vitamin C (mg)", "Vitamin D (μg)", "Vitamin E (mg)",
   "Anthocyanidins (mg)", "Flavan-3-ol (mg)", "Flavones (mg)",
   "Flavonols (mg)", "Flavonones (mg)", "Isoflavones (mg)"]

/-- The `dietary_indices` table of app.py (lines 26-81): component lists
with a maximum score; no weights, descriptions or normalization exist in
this variant. -/
def dietary_indices : List (String × List String × Nat) :=
  [("AHEI-2010", ahei_components, 11), ("aMED", amed_components, 9),
   ("MIND", mind_components, 15), ("DASH", dash_components, 8),
   ("PDI", pdi_components, 18), ("DII", dii_components, 45)]

/-- Translation of `calculate_dietary_scores` of app.py (lines 83-110):
categories are collected verbatim (no normalization), the score counts the
components present among the categories, an unconditional energy bonus is
added for indices containing "Energy (kcal)", and no cap is applied. -/
def calculate_dietary_scores (food_data : Food)
    (selected_optionals : List String) : List (String × Nat × Nat) :=
  let categories := food_data.primary_ingredients.map (fun p => p.2.category)
    ++ (food_data.optional_ingredients.filter
          (fun p => decide (p.1 ∈ selected_optionals))).map
        (fun p => p.2.category)
  dietary_indices.map (fun e =>
    let score := (e.2.1.filter (fun comp => decide (comp ∈ categories))).length
    let score := if "Energy (kcal)" ∈ e.2.1 then score + 1 else score
    (e.1, score, e.2.2))

end app

/-! ### Helper lemmas on the string models -/

/-- Computation rule for `Char.toLower` at the level of code points. -/
theorem char_toLower_eq (c : Char) :
    Char.toLower c =
      if c.toNat ≥ 65 ∧ c.toNat ≤ 90 then Char.ofNat (c.toNat + 32) else c := rfl

/-- Code point of the lowercased character. -/
theorem char_toNat_toLower (c : Char) :
    (Char.toLower c).toNat =
      if c.toNat ≥ 65 ∧ c.toNat ≤ 90 then c.toNat + 32 else c.toNat := by
  rw [char_toLower_eq]
  split
  · rename_i h
    have hv : Nat.isValidChar (c.toNat + 32) := Or.inl (by omega)
    rw [Char.ofNat, dif_pos hv]
    simp [Char.ofNatAux, Char.toNat, UInt32.toNat]
  · rfl

/-- Lowercasing a character is idempotent. -/
theorem char_toLower_idem (c : Char) :
    Char.toLower (Char.toLower c) = Char.toLower c := by
  by_cases h : c.toNat ≥ 65 ∧ c.toNat ≤ 90
  · have ht : (Char.toLower c).toNat = c.toNat + 32 := by
      rw [char_toNat_toLower, if_pos h]
    rw [char_toLower_eq (Char.toLower c), if_neg (by rw [ht]; omega)]
  · rw [char_toLower_eq c, if_neg h, char_toLower_eq c, if_neg h]

/-- A map whose function fixes every member of the list is the identity. -/
theorem map_eq_self_of_fixed {α : Type} {f : α → α} :
    ∀ {l : List α}, (∀ a ∈ l, f a = a) → l.map f = l
  | [], _ => rfl
  | a :: t, h => by
    rw [List.map_cons, h a (List.mem_cons_self a t),
      map_eq_self_of_fixed (fun b hb => h b (List.mem_cons_of_mem a hb))]

/-- Dropping a prefix of matching elements twice is the same as once. -/
theorem dropWhile_idem {α : Type} (p : α → Bool) :
    ∀ l : List α, (l.dropWhile p).dropWhile p = l.dropWhile p
  | [] => rfl
  | a :: t => by
    by_cases h : p a
    · simp only [List.dropWhile_cons, h, if_true]
      exact dropWhile_idem p t
    · simp [List.dropWhile_cons, h]

/-- A nonempty list fixed by `dropWhile` has a head not matching the
predicate. -/
theorem head_false_of_dropWhile_eq_self {α : Type} (p : α → Bool) (a : α)
    (r : List α) (h : (a :: r).dropWhile p = a :: r) : p a = false := by
  cases hpa : p a
  · rfl
  · exfalso
    rw [List.dropWhile_cons, if_pos hpa] at h
    have hlen := (h ▸ List.dropWhile_sublist (l := r) p).length_le
    simp at hlen

/-- If an appended list is fixed by `dropWhile`, so is its first part. -/
theorem dropWhile_eq_self_of_append {α : Type} (p : α → Bool) (x y : List α)
    (h : (x ++ y).dropWhile p = x ++ y) : x.dropWhile p = x := by
  cases x with
  | nil => rfl
  | cons a t =>
    have ha : p a = false :=
      head_false_of_dropWhile_eq_self p a (t ++ y) (by simpa using h)
    simp [List.dropWhile_cons, ha]

/-- Stripping is idempotent at the list level. -/
theorem stripL_idem (l : List Char) : stripL (stripL l) = stripL l := by
  obtain ⟨s, hs⟩ :=
    List.dropWhile_suffix (l := (l.dropWhile pyIsSpace).reverse) pyIsSpace
  have hm : (stripL l) ++ s.reverse = l.dropWhile pyIsSpace := by
    have h2 := congrArg List.reverse hs
    simpa [stripL, List.reverse_append] using h2
  have h1 : (stripL l).dropWhile pyIsSpace = stripL l := by
    apply dropWhile_eq_self_of_append pyIsSpace _ s.reverse
    rw [hm]
    exact dropWhile_idem pyIsSpace l
  have h2 : (stripL l).reverse.dropWhile pyIsSpace = (stripL l).reverse := by
    have hrev : (stripL l).reverse
        = (l.dropWhile pyIsSpace).reverse.dropWhile pyIsSpace := by
      simp [stripL]
    rw [hrev]
    exact dropWhile_idem pyIsSpace _
  calc stripL (stripL l)
      = (((stripL l).dropWhile pyIsSpace).reverse.dropWhile pyIsSpace).reverse := rfl
    _ = ((stripL l).reverse.dropWhile pyIsSpace).reverse := by rw [h1]
    _ = ((stripL l).reverse).reverse := by rw [h2]
    _ = stripL l := by simp

/-- Members of the stripped list are members of the list. -/
theorem mem_of_mem_stripL {a : Char} {l : List Char} (h : a ∈ stripL l) :
    a ∈ l := by
  unfold stripL at h
  rw [List.mem_reverse] at h
  have h2 := (List.dropWhile_sublist pyIsSpace).subset h
  rw [List.mem_reverse] at h2
  exact (List.dropWhile_sublist pyIsSpace).subset h2

/-- The lower-then-strip preprocessing of `normalize_category` is
idempotent. -/
theorem pyStrip_pyLower_idem (s : String) :
    pyStrip (pyLower (pyStrip (pyLower s))) = pyStrip (pyLower s) := by
  have hfix : ∀ a ∈ stripL (s.data.map Char.toLower), Char.toLower a = a := by
    intro a ha
    obtain ⟨b, -, rfl⟩ := List.mem_map.mp (mem_of_mem_stripL ha)
    exact char_toLower_idem b
  show String.mk (stripL ((stripL (s.data.map Char.toLower)).map Char.toLower))
      = String.mk (stripL (s.data.map Char.toLower))
  rw [map_eq_self_of_fixed hfix, stripL_idem]

/-- A successful association-list lookup yields a member pair. -/
theorem lookup_mem {c v : String} {l : List (String × String)}
    (h : l.lookup c = some v) : (c, v) ∈ l := by
  obtain ⟨l₁, l₂, rfl, -⟩ := List.lookup_eq_some_iff.mp h
  simp

/-- Every alias value of the table is a fixed point of
`normalize_category`. -/
theorem alias_values_fixed :
    ∀ kv ∈ category_mappings, normalize_category kv.2 = kv.2 := by decide

/-! ### Claim theorems -/

/-- C4.  The category normalizer is a total pure function: it lower-cases
and strips the input; when the result is a key of the fixed alias table it
returns the alias value, and otherwise it returns the lower-cased,
stripped input unchanged; the three alias examples all map to
"other vegetables". -/
theorem C4_normalize_category_spec (s : String) :
    (∀ v, category_mappings.lookup (pyStrip (pyLower s)) = some v →
        normalize_category s = v)
    ∧ (category_mappings.lookup (pyStrip (pyLower s)) = none →
        normalize_category s = pyStrip (pyLower s))
    ∧ normalize_category ("Vegetables") = "other vegetables"
    ∧ normalize_category ("  VEGETABLES ") = "other vegetables"
    ∧ normalize_category ("vegetables") = "other vegetables" := by
  refine ⟨?_, ?_, by decide, by decide, by decide⟩
  · intro v h
    show (category_mappings.lookup (pyStrip (pyLower s))).getD
        (pyStrip (pyLower s)) = v
    rw [h]
    rfl
  · intro h
    show (category_mappings.lookup (pyStrip (pyLower s))).getD
        (pyStrip (pyLower s)) = pyStrip (pyLower s)
    rw [h]
    rfl

/-- Witness for C4 at the concrete input "  Beans ", whose lower-cased,
stripped form is the alias key "beans". -/
theorem C4_normalize_category_spec_witness :
    category_mappings.lookup (pyStrip (pyLower ("  Beans ")))
      = some ("beans & legumes")
    ∧ normalize_category ("  Beans ") = "beans & legumes" :=
  ⟨by decide,
   (C4_normalize_category_spec ("  Beans ")).1 ("beans & legumes") (by decide)⟩

/-- C5.  The category normalizer is idempotent: normalizing twice equals
normalizing once, so every output of `normalize_category` is one of its
fixed points. -/
theorem C5_normalize_category_idempotent (s : String) :
    normalize_category (normalize_category s) = normalize_category s := by
  have hout : normalize_category s
      = (category_mappings.lookup (pyStrip (pyLower s))).getD
          (pyStrip (pyLower s)) := rfl
  cases h : category_mappings.lookup (pyStrip (pyLower s)) with
  | some v =>
    have h1 : normalize_category s = v := by rw [hout, h]; rfl
    rw [h1]
    exact alias_values_fixed (pyStrip (pyLower s), v) (lookup_mem h)
  | none =>
    have h1 : normalize_category s = pyStrip (pyLower s) := by rw [hout, h]; rfl
    rw [h1]
    show (category_mappings.lookup
          (pyStrip (pyLower (pyStrip (pyLower s))))).getD
        (pyStrip (pyLower (pyStrip (pyLower s)))) = pyStrip (pyLower s)
    rw [pyStrip_pyLower_idem, h]
    rfl

/-- The running score is the sum of the per-entry contributions. -/
theorem rawScore_eq_sum (categories : List String) :
    ∀ cs : List (String × Nat),
      rawScore categories cs = (cs.map (contrib categories)).sum
  | [] => rfl
  | (c, p) :: rest => by
    have ih := rawScore_eq_sum categories rest
    by_cases h1 : normalize_category c ∈ categories
    · simp [rawScore, contrib, h1, ih]
    · by_cases h2 : c = "Energy (kcal)"
      · simp [rawScore, contrib, h1, h2, ih]
      · simp [rawScore, contrib, h1, h2, ih]

/-- An "Energy (kcal)" entry is always matched. -/
theorem energy_mem_matched (categories : List String) :
    ∀ cs : List (String × Nat), "Energy (kcal)" ∈ cs.map Prod.fst →
      "Energy (kcal)" ∈ matchedComponents categories cs
  | [], h => by simp at h
  | (c, p) :: rest, h => by
    rw [List.map_cons] at h
    rcases List.mem_cons.mp h with h1 | h2
    · have hc : c = "Energy (kcal)" := by simpa using h1.symm
      subst hc
      by_cases hm : normalize_category ("Energy (kcal)") ∈ categories
      · simp [matchedComponents, hm]
      · simp [matchedComponents, hm]
    · have ih := energy_mem_matched categories rest h2
      by_cases hm : normalize_category c ∈ categories
      · simp [matchedComponents, hm, ih]
      · by_cases he : c = "Energy (kcal)"
        · simp [matchedComponents, hm, he, ih]
        · simp [matchedComponents, hm, he, ih]

/-- "Energy (kcal)" occurs in the matched-component list exactly as often
as it occurs among the component labels. -/
theorem count_energy_matched (categories : List String) :
    ∀ cs : List (String × Nat),
      (matchedComponents categories cs).count ("Energy (kcal)")
        = (cs.map Prod.fst).count ("Energy (kcal)")
  | [] => rfl
  | (c, p) :: rest => by
    have ih := count_energy_matched categories rest
    by_cases hm : normalize_category c ∈ categories
    · simp [matchedComponents, hm, List.count_cons, ih]
    · by_cases he : c = "Energy (kcal)"
      · simp [matchedComponents, hm, he, List.count_cons, ih]
      · simp [matchedComponents, hm, he, List.count_cons, ih]

/-- C1 (amended).  In the normalized engine of app_2.py every returned
score is capped: each result satisfies score less-or-equal max_score, and
whenever the raw matched-weight sum exceeds an index maximum the reported
score is exactly that maximum (the min cap of line 321). -/
theorem C1_app2_score_capped :
    (∀ (food_data : Food) (selected_optionals : List String)
        (r : String × Nat × Nat × List String),
        r ∈ calculate_dietary_scores food_data selected_optionals →
        r.2.1 ≤ r.2.2.1)
    ∧ (∀ (categories : List String) (info : IndexInfo),
        info.max_score < rawScore categories info.components →
        min (rawScore categories info.components) info.max_score
          = info.max_score) := by
  constructor
  · intro food sel r hr
    simp only [calculate_dietary_scores, List.mem_map] at hr
    obtain ⟨e, -, rfl⟩ := hr
    exact Nat.min_le_right _ _
  · intro cats info h
    exact min_eq_right (le_of_lt h)

/-- A small concrete food used by witnesses: one primary tomato ingredient
and one optional bacon ingredient. -/
def scenarioFood : Food :=
  ⟨[("Tomato", ⟨"vegetables"⟩)], [("Bacon", ⟨"red meat"⟩)]⟩

/-- Category list on which every DASH component matches, making the raw
DASH sum exceed the DASH maximum of 8. -/
def dashSaturatedCategories : List String :=
  ["other vegetables", "fruit", "whole grains", "nuts", "beans & legumes",
   "low-fat dairy", "red & processed meat", "sweets and desserts", "sodium"]

/-- Witness for C1: a concrete result of the app_2 engine respects its
cap, and a saturated synthetic category set drives the raw DASH sum over
the maximum, which the cap then returns exactly. -/
theorem C1_app2_score_capped_witness :
    (("AHEI-2010", 2, 11, ["other vegetables", "red & processed meat"])
      ∈ calculate_dietary_scores scenarioFood ["Bacon"])
    ∧ (2 : Nat) ≤ 11
    ∧ dash.max_score < rawScore dashSaturatedCategories dash.components
    ∧ min (rawScore dashSaturatedCategories dash.components) dash.max_score
      = dash.max_score :=
  ⟨by decide,
   C1_app2_score_capped.1 scenarioFood ["Bacon"]
     (("AHEI-2010", 2, 11, ["other vegetables", "red & processed meat"]))
     (by decide),
   by decide,
   C1_app2_score_capped.2 dashSaturatedCategories dash (by decide)⟩

/-- A synthetic food whose primary categories are exactly the fourteen
AHEI-2010 component labels. -/
def aheiFullFood : Food :=
  ⟨[("i01", ⟨"other vegetables"⟩), ("i02", ⟨"Fruit"⟩),
    ("i03", ⟨"Whole Grains"⟩), ("i04", ⟨"sugar sweetened beverages"⟩),
    ("i05", ⟨"nuts"⟩), ("i06", ⟨"fish"⟩), ("i07", ⟨"red & processed meat"⟩),
    ("i08", ⟨"poultry (not fried, skinless)"⟩), ("i09", ⟨"dairy"⟩),
    ("i10", ⟨"alcohol"⟩), ("i11", ⟨"vegetable oils"⟩), ("i12", ⟨"trans fat"⟩),
    ("i13", ⟨"n-3 fats"⟩), ("i14", ⟨"PUFA"⟩)], []⟩

/-- Counterexample for C1 as stated: the app.py scoring engine, also cited
by the claim, applies no cap, and on a food matching all fourteen
AHEI-2010 components it returns the score 14 against the declared maximum
11, violating score less-or-equal max_score. -/
theorem C1_app_uncapped_counterexample :
    (app.calculate_dietary_scores aheiFullFood []).head?
      = some ("AHEI-2010", 14, 11)
    ∧ ¬ ((14 : Nat) ≤ 11) :=
  ⟨by decide, by decide⟩

/-- C2 (amended).  In the app_2.py engine, for every food and selection,
an index whose component mapping contains "Energy (kcal)" always has
"Energy (kcal)" in its matched-component list, exactly as often as it
occurs among the component labels; the entry contributes exactly its
weight, the raw score being the sum of per-entry contributions; and the
corresponding capped result is returned by `calculate_dietary_scores`. -/
theorem C2_app2_energy_bonus (food_data : Food)
    (selected_optionals : List String) (idx : String) (info : IndexInfo)
    (hmem : (idx, info) ∈ dietary_indices)
    (henergy : "Energy (kcal)" ∈ info.components.map Prod.fst) :
    "Energy (kcal)" ∈ matchedComponents
        (collectCategories food_data selected_optionals) info.components
    ∧ (matchedComponents (collectCategories food_data selected_optionals)
          info.components).count ("Energy (kcal)")
      = (info.components.map Prod.fst).count ("Energy (kcal)")
    ∧ (∀ p : Nat, contrib (collectCategories food_data selected_optionals)
        ("Energy (kcal)", p) = p)
    ∧ rawScore (collectCategories food_data selected_optionals)
          info.components
      = (info.components.map
          (contrib (collectCategories food_data selected_optionals))).sum
    ∧ (idx,
        min (rawScore (collectCategories food_data selected_optionals)
          info.components) info.max_score,
        info.max_score,
        matchedComponents (collectCategories food_data selected_optionals)
          info.components)
      ∈ calculate_dietary_scores food_data selected_optionals := by
  refine ⟨energy_mem_matched _ _ henergy, count_energy_matched _ _,
    ?_, rawScore_eq_sum _ _, ?_⟩
  · intro p
    unfold contrib
    split
    · rfl
    · rw [if_pos rfl]
  · simp only [calculate_dietary_scores]
    exact List.mem_map_of_mem _ hmem

/-- Witness for C2 at the DII index of the catalog and a concrete food. -/
theorem C2_app2_energy_bonus_witness :
    "Energy (kcal)" ∈ matchedComponents (collectCategories scenarioFood [])
        dii.components
    ∧ (matchedComponents (collectCategories scenarioFood [])
          dii.components).count ("Energy (kcal)")
      = (dii.components.map Prod.fst).count ("Energy (kcal)") :=
  ⟨(C2_app2_energy_bonus scenarioFood [] ("DII") dii (by decide)
      (by decide)).1,
   (C2_app2_energy_bonus scenarioFood [] ("DII") dii (by decide)
      (by decide)).2.1⟩

/-- A synthetic food with a single primary ingredient whose category is the
literal label "Energy (kcal)". -/
def energyCategoryFood : Food := ⟨[("Mystery", ⟨"Energy (kcal)"⟩)], []⟩

/-- Counterexample for C2 as stated: in the app.py engine, also cited by
the claim, the unconditional energy bonus stacks with an ordinary category
match, so this food earns a DII score of 2 although exactly one DII
component matches its single category and that component has weight 1,
contradicting that the energy weight is added exactly once regardless of
the ingredient categories of the food. -/
theorem C2_app_energy_double_count :
    ("DII", 2, 45) ∈ app.calculate_dietary_scores energyCategoryFood []
    ∧ (app.dii_components.filter
        (fun comp => decide (comp ∈ ["Energy (kcal)"]))).length = 1 :=
  ⟨by decide, by decide⟩

/-- C3.  A matched reverse-scored component contributes its weight to the
additive score exactly like any other matched component (the contribution
never consults the reverse-scored set), while the explanation places it in
the negative bucket and never in the positive bucket. -/
theorem C3_reverse_scored_routing (categories matched_list : List String)
    (comp : String) (p : Nat) :
    (comp ∈ reverse_scored_components → comp ∈ matched_list →
      comp ∈ negative_components matched_list
      ∧ comp ∉ positive_components matched_list)
    ∧ (normalize_category comp ∈ categories →
        contrib categories (comp, p) = p)
    ∧ (∀ cs : List (String × Nat),
        rawScore categories cs = (cs.map (contrib categories)).sum) := by
  refine ⟨?_, ?_, rawScore_eq_sum categories⟩
  · intro hrev hmem
    constructor
    · simp [negative_components, List.mem_filter, hmem, hrev]
    · simp [positive_components, List.mem_filter, hrev]
  · intro h
    simp [contrib, h]

/-- Witness for C3: selecting the optional bacon ingredient, whose
category normalizes to the reverse-scored label "red & processed meat",
puts that label in the negative bucket of the AHEI-2010 explanation and
not in the positive one. -/
theorem C3_reverse_scored_routing_witness :
    "red & processed meat" ∈ negative_components
        (matchedComponents (collectCategories scenarioFood ["Bacon"])
          ahei2010.components)
    ∧ "red & processed meat" ∉ positive_components
        (matchedComponents (collectCategories scenarioFood ["Bacon"])
          ahei2010.components) :=
  (C3_reverse_scored_routing (collectCategories scenarioFood ["Bacon"])
      (matchedComponents (collectCategories scenarioFood ["Bacon"])
        ahei2010.components)
      ("red & processed meat") 1).1 (by decide) (by decide)

/-- C7.  The explanation headline is determined solely by the percentage,
with inclusive lower bounds 70, 50 and 30 for the four bands. -/
theorem C7_assessment_bands (index : String) (percentage : ℚ) :
    (70 ≤ percentage →
      assessment_line index percentage
        = "**Excellent news!** Your food scores " ++ pctText percentage
          ++ "% on the " ++ index ++ " scale, which is considered very good.")
    ∧ (50 ≤ percentage ∧ percentage < 70 →
      assessment_line index percentage
        = "**Good progress!** Your food scores " ++ pctText percentage
          ++ "% on the " ++ index ++ " scale, which is moderately healthy.")
    ∧ (30 ≤ percentage ∧ percentage < 50 →
      assessment_line index percentage
        = "**Room for improvement.** Your food scores " ++ pctText percentage
          ++ "% on the " ++ index
          ++ " scale, indicating some healthy elements but with potential for enhancement.")
    ∧ (percentage < 30 →
      assessment_line index percentage
        = "**Significant improvement needed.** Your food scores "
          ++ pctText percentage ++ "% on the " ++ index
          ++ " scale, suggesting this food doesn\x27t align well with this dietary pattern.") := by
  refine ⟨fun h => ?_, fun h => ?_, fun h => ?_, fun h => ?_⟩
  · unfold assessment_line
    rw [if_pos h]
  · unfold assessment_line
    rw [if_neg (not_le.mpr h.2), if_pos h.1]
  · unfold assessment_line
    rw [if_neg (not_le.mpr (h.2.trans (by norm_num))),
      if_neg (not_le.mpr h.2), if_pos h.1]
  · unfold assessment_line
    rw [if_neg (not_le.mpr (h.trans (by norm_num))),
      if_neg (not_le.mpr (h.trans (by norm_num))), if_neg (not_le.mpr h)]

/-- Witness for C7 at the inclusive band boundary of 70 percent. -/
theorem C7_assessment_bands_witness :
    (70 : ℚ) ≤ 70
    ∧ assessment_line ("AHEI-2010") 70
      = "**Excellent news!** Your food scores " ++ pctText 70
        ++ "% on the " ++ "AHEI-2010" ++ " scale, which is considered very good." :=
  ⟨by norm_num, (C7_assessment_bands ("AHEI-2010") 70).1 (by norm_num)⟩

/-- C8.  The improvement-suggestion pool is exactly the index components
that are neither matched nor reverse-scored, in component order; only its
first three elements are emitted (a prefix of length at most 3); and the
remaining-count line appears exactly when more than three exist, stating
the exact remainder. -/
theorem C8_improvement_suggestions (all_components matched_list : List String) :
    (∀ comp, comp ∈ unmatched_components all_components matched_list
      ↔ (comp ∈ all_components ∧ comp ∉ matched_list
          ∧ comp ∉ reverse_scored_components))
    ∧ (unmatched_components all_components matched_list).take 3
        ++ (unmatched_components all_components matched_list).drop 3
      = unmatched_components all_components matched_list
    ∧ ((unmatched_components all_components matched_list).take 3).length ≤ 3
    ∧ (3 < (unmatched_components all_components matched_list).length →
        remaining_note all_components matched_list
          = ["• ... and "
              ++ toString
                ((unmatched_components all_components matched_list).length - 3)
              ++ " other beneficial components"])
    ∧ ((unmatched_components all_components matched_list).length ≤ 3 →
        remaining_note all_components matched_list = []) := by
  refine ⟨?_, List.take_append_drop 3 _, ?_, ?_, ?_⟩
  · intro comp
    simp [unmatched_components, List.mem_filter]
  · rw [List.length_take]
    exact min_le_left 3 _
  · intro h
    unfold remaining_note
    rw [if_pos h]
  · intro h
    unfold remaining_note
    rw [if_neg (by omega)]

/-- Witness for C8 at the MIND component list with nothing matched: ten
components are improvable, so the remaining-count line reports seven. -/
theorem C8_improvement_suggestions_witness :
    3 < (unmatched_components (mind.components.map Prod.fst) []).length
    ∧ remaining_note (mind.components.map Prod.fst) []
      = ["• ... and "
          ++ toString
            ((unmatched_components (mind.components.map Prod.fst) []).length - 3)
          ++ " other beneficial components"] :=
  ⟨by decide,
   (C8_improvement_suggestions (mind.components.map Prod.fst) []).2.2.2.1
     (by decide)⟩

/-- C9.  Scoring ignores selected names that are not optional ingredients
of the food: restricting the selection to the names actually present among
the optional ingredients yields exactly the same results. -/
theorem C9_unknown_selection_ignored (food_data : Food)
    (selected_optionals : List String) :
    calculate_dietary_scores food_data selected_optionals
      = calculate_dietary_scores food_data
          (selected_optionals.filter (fun n =>
            decide (n ∈ food_data.optional_ingredients.map Prod.fst))) := by
  have hcat : collectCategories food_data selected_optionals
      = collectCategories food_data
          (selected_optionals.filter (fun n =>
            decide (n ∈ food_data.optional_ingredients.map Prod.fst))) := by
    unfold collectCategories
    congr 2
    apply List.filter_congr
    intro p hp
    have hname : p.1 ∈ food_data.optional_ingredients.map Prod.fst :=
      List.mem_map_of_mem Prod.fst hp
    apply decide_eq_decide.mpr
    constructor
    · intro hin
      exact List.mem_filter.mpr ⟨hin, by simpa using hname⟩
    · intro hin
      exact (List.mem_filter.mp hin).1
  simp only [calculate_dietary_scores]
  rw [hcat]

/-- Categories only grow when the selection grows. -/
theorem collectCategories_mono {food_data : Food} {S T : List String}
    (hST : S ⊆ T) :
    collectCategories food_data S ⊆ collectCategories food_data T := by
  intro x hx
  unfold collectCategories at hx ⊢
  rw [List.mem_append] at hx ⊢
  rcases hx with h | h
  · exact Or.inl h
  · right
    rw [List.mem_map] at h ⊢
    obtain ⟨p, hp, rfl⟩ := h
    refine ⟨p, ?_, rfl⟩
    rw [List.mem_filter] at hp ⊢
    exact ⟨hp.1, by simp [hST (by simpa using hp.2)]⟩

/-- The raw score is monotone in the category set. -/
theorem rawScore_mono {cats1 cats2 : List String} (h : cats1 ⊆ cats2) :
    ∀ cs : List (String × Nat), rawScore cats1 cs ≤ rawScore cats2 cs
  | [] => le_refl 0
  | (c, p) :: rest => by
    have ih := rawScore_mono h rest
    by_cases h1 : normalize_category c ∈ cats1
    · have h2 : normalize_category c ∈ cats2 := h h1
      simp only [rawScore, if_pos h1, if_pos h2]
      omega
    · by_cases he : c = "Energy (kcal)"
      · by_cases h2 : normalize_category c ∈ cats2
        · simp only [rawScore, if_neg h1, if_pos he, if_pos h2]
          omega
        · simp only [rawScore, if_neg h1, if_pos he, if_neg h2]
          omega
      · by_cases h2 : normalize_category c ∈ cats2
        · simp only [rawScore, if_neg h1, if_neg he, if_pos h2]
          omega
        · simp only [rawScore, if_neg h1, if_neg he, if_neg h2]
          omega

/-- The matched-component list only grows with the category set. -/
theorem matchedComponents_mono {cats1 cats2 : List String}
    (h : cats1 ⊆ cats2) :
    ∀ cs : List (String × Nat),
      matchedComponents cats1 cs ⊆ matchedComponents cats2 cs
  | [] => by intro x hx; exact hx
  | (c, p) :: rest => by
    have ih := matchedComponents_mono h rest
    intro x hx
    by_cases h1 : normalize_category c ∈ cats1
    · have h2 : normalize_category c ∈ cats2 := h h1
      simp only [matchedComponents, if_pos h1, if_pos h2,
        List.mem_cons] at hx ⊢
      rcases hx with rfl | hx
      · exact Or.inl rfl
      · exact Or.inr (ih hx)
    · by_cases he : c = "Energy (kcal)"
      · by_cases h2 : normalize_category c ∈ cats2
        · simp only [matchedComponents, if_neg h1, if_pos he, if_pos h2,
            List.mem_cons] at hx ⊢
          rcases hx with rfl | hx
          · exact Or.inl rfl
          · exact Or.inr (ih hx)
        · simp only [matchedComponents, if_neg h1, if_pos he, if_neg h2,
            List.mem_cons] at hx ⊢
          rcases hx with rfl | hx
          · exact Or.inl rfl
          · exact Or.inr (ih hx)
      · by_cases h2 : normalize_category c ∈ cats2
        · simp only [matchedComponents, if_neg h1, if_neg he, if_pos h2,
            List.mem_cons] at hx ⊢
          exact Or.inr (ih hx)
        · simp only [matchedComponents, if_neg h1, if_neg he,
            if_neg h2] at hx ⊢
          exact ih hx

/-- Pointwise relation between two maps over the same list. -/
theorem forall2_map_map {α β : Type} (l : List α) (f g : α → β)
    (R : β → β → Prop) (h : ∀ a ∈ l, R (f a) (g a)) :
    List.Forall₂ R (l.map f) (l.map g) := by
  induction l with
  | nil => exact List.Forall₂.nil
  | cons a t ih =>
    exact List.Forall₂.cons (h a (List.mem_cons_self a t))
      (ih (fun b hb => h b (List.mem_cons_of_mem a hb)))

/-- C10.  Scoring is monotone in the selected-optional set: enlarging the
selection never lowers any index score and only enlarges each
matched-component list, index by index. -/
theorem C10_score_monotone (food_data : Food) (S T : List String)
    (hST : S ⊆ T) :
    List.Forall₂ (fun a b : String × Nat × Nat × List String =>
        a.1 = b.1 ∧ a.2.1 ≤ b.2.1 ∧ a.2.2.1 = b.2.2.1 ∧ a.2.2.2 ⊆ b.2.2.2)
      (calculate_dietary_scores food_data S)
      (calculate_dietary_scores food_data T) := by
  have hsub := @collectCategories_mono food_data S T hST
  simp only [calculate_dietary_scores]
  apply forall2_map_map
  intro e he
  exact ⟨rfl, min_le_min (rawScore_mono hsub e.2.components) (le_refl _),
    rfl, matchedComponents_mono hsub e.2.components⟩

/-- Witness for C10: empty selection against the bacon selection on the
concrete scenario food. -/
theorem C10_score_monotone_witness :
    List.Forall₂ (fun a b : String × Nat × Nat × List String =>
        a.1 = b.1 ∧ a.2.1 ≤ b.2.1 ∧ a.2.2.1 = b.2.2.1 ∧ a.2.2.2 ⊆ b.2.2.2)
      (calculate_dietary_scores scenarioFood [])
      (calculate_dietary_scores scenarioFood ["Bacon"]) :=
  C10_score_monotone scenarioFood [] ["Bacon"] (List.nil_subset _)

/-- Filtering twice with the same predicate is the same as filtering
once. -/
theorem filter_self_filter {α : Type} (p : α → Bool) (l : List α) :
    (l.filter p).filter p = l.filter p := by
  rw [List.filter_filter]
  apply List.filter_congr
  intro a _
  exact Bool.and_self (p a)

/-- C6.  The presented result list is the percentage-decorated score list
sorted by percentage in descending order; it is a permutation of it, and
elements of equal percentage keep their relative order from the catalog
(the filter at any fixed percentage is unchanged). -/
theorem C6_presented_order (food_data : Food)
    (selected_optionals : List String) :
    (presented_scores food_data selected_optionals).Pairwise
        (fun a b => pctOf b ≤ pctOf a)
    ∧ (presented_scores food_data selected_optionals).Perm
        (scores_with_percentage
          (calculate_dietary_scores food_data selected_optionals))
    ∧ ∀ q : ℚ,
        (presented_scores food_data selected_optionals).filter
            (fun x => decide (pctOf x = q))
          = (scores_with_percentage
              (calculate_dietary_scores food_data selected_optionals)).filter
              (fun x => decide (pctOf x = q)) := by
  have htrans : ∀ a b c : String × Nat × Nat × List String × ℚ,
      (fun a b => decide (pctOf b ≤ pctOf a)) a b
      → (fun a b => decide (pctOf b ≤ pctOf a)) b c
      → (fun a b => decide (pctOf b ≤ pctOf a)) a c := by
    intro a b c hab hbc
    simp only [decide_eq_true_eq] at hab hbc ⊢
    exact hbc.trans hab
  have htotal : ∀ a b : String × Nat × Nat × List String × ℚ,
      (fun a b => decide (pctOf b ≤ pctOf a)) a b
      || (fun a b => decide (pctOf b ≤ pctOf a)) b a := by
    intro a b
    rcases le_total (pctOf a) (pctOf b) with h | h
    · simp [h]
    · simp [h]
  refine ⟨?_, ?_, ?_⟩
  · have hs := List.sorted_mergeSort htrans htotal
      (scores_with_percentage
        (calculate_dietary_scores food_data selected_optionals))
    exact hs.imp (fun hb => by simpa using hb)
  · exact List.mergeSort_perm _ _
  · intro q
    have hperm : (presented_scores food_data selected_optionals).Perm
        (scores_with_percentage
          (calculate_dietary_scores food_data selected_optionals)) :=
      List.mergeSort_perm _ _
    have hpair : ((scores_with_percentage
        (calculate_dietary_scores food_data selected_optionals)).filter
          (fun x => decide (pctOf x = q))).Pairwise
        (fun a b => (fun a b => decide (pctOf b ≤ pctOf a)) a b) := by
      apply List.pairwise_of_forall_mem_list
      intro a ha b hb
      have ha2 := (List.mem_filter.mp ha).2
      have hb2 := (List.mem_filter.mp hb).2
      simp only [decide_eq_true_eq] at ha2 hb2 ⊢
      rw [ha2, hb2]
    have hsub : List.Sublist
        ((scores_with_percentage
          (calculate_dietary_scores food_data selected_optionals)).filter
            (fun x => decide (pctOf x = q)))
        (presented_scores food_data selected_optionals) :=
      List.sublist_mergeSort htrans htotal hpair (List.filter_sublist _)
    have hsub2 : List.Sublist
        ((scores_with_percentage
          (calculate_dietary_scores food_data selected_optionals)).filter
            (fun x => decide (pctOf x = q)))
        ((presented_scores food_data selected_optionals).filter
          (fun x => decide (pctOf x = q))) := by
      have h3 := hsub.filter (fun x => decide (pctOf x = q))
      rwa [filter_self_filter] at h3
    have hlen : ((presented_scores food_data selected_optionals).filter
          (fun x => decide (pctOf x = q))).length
        = ((scores_with_percentage
            (calculate_dietary_scores food_data selected_optionals)).filter
            (fun x => decide (pctOf x = q))).length :=
      (hperm.filter _).length_eq
    exact (hsub2.eq_of_length hlen.symm).symm
